import Mathlib

/-!
Verification of the `CascadedNet` music source separation network
(`FastAPI-deploy/lib/nets.py`): a shallow embedding of the tensor
operations used by `CascadedNet.forward`, `predict_mask` and `predict`,
together with proofs of the spec's testable properties.

Tensors are rank-4 arrays (batch, channel, frequency, time) modelled as a
shape quadruple plus a total data function; float32 arithmetic is modelled
over `ℝ` (complex64 over `ℂ`).  The sub-networks built from `lib.layers`
(`BaseNet`, `Conv2DBNActiv`, …) are not part of the available source; they
are modelled from the spec by their shape contract (spatial shape
preserved, channel count mapped `nin → nout`), leaving their values
abstract.
-/

namespace MFCC

/-- Rank-4 tensor (batch, channel, frequency-bin, time-frame) over entry
type `α`: the four extents plus a total data function.  Only indices below
the extents are meaningful; operations below follow PyTorch semantics on
the in-range part. -/
structure Tensor (α : Type) where
  b : ℕ
  c : ℕ
  f : ℕ
  t : ℕ
  data : ℕ → ℕ → ℕ → ℕ → α

namespace Tensor

variable {α β : Type}

/-- The shape quadruple (batch, channel, frequency, time). -/
def shape (x : Tensor α) : ℕ × ℕ × ℕ × ℕ := (x.b, x.c, x.f, x.t)

/-- `x[:, :, :m]`: keep the first `m` frequency bins (PyTorch slicing clamps,
so the resulting extent is `min m x.f`). -/
def truncF (m : ℕ) (x : Tensor α) : Tensor α :=
  ⟨x.b, x.c, min m x.f, x.t, x.data⟩

/-- `x[:, :, m:]`: drop the first `m` frequency bins. -/
def highF (m : ℕ) (x : Tensor α) : Tensor α :=
  ⟨x.b, x.c, x.f - m, x.t, fun i c f t => x.data i c (m + f) t⟩

/-- `x[:, :2]`: keep the first `m` channels. -/
def truncC (m : ℕ) (x : Tensor α) : Tensor α :=
  ⟨x.b, min m x.c, x.f, x.t, x.data⟩

/-- `x[:, m:]`: drop the first `m` channels. -/
def highC (m : ℕ) (x : Tensor α) : Tensor α :=
  ⟨x.b, x.c - m, x.f, x.t, fun i c f t => x.data i (m + c) f t⟩

/-- `torch.cat([a, b], dim=1)`: concatenation along the channel axis
(the other extents are taken from the first operand). -/
def catC (a b : Tensor α) : Tensor α :=
  ⟨a.b, a.c + b.c, a.f, a.t, fun i c f t =>
    if c < a.c then a.data i c f t else b.data i (c - a.c) f t⟩

/-- `torch.cat([a, b], dim=2)`: concatenation along the frequency axis. -/
def catF (a b : Tensor α) : Tensor α :=
  ⟨a.b, a.c, a.f + b.f, a.t, fun i c f t =>
    if f < a.f then a.data i c f t else b.data i c (f - a.f) t⟩

/-- Elementwise map (an elementwise activation applied to every entry). -/
def map (g : α → β) (x : Tensor α) : Tensor β :=
  ⟨x.b, x.c, x.f, x.t, fun i c f t => g (x.data i c f t)⟩

/-- `F.pad(input, pad=(0, 0, 0, k), mode='replicate')`: append `k` rows at
the top end of the frequency axis, each a copy of the last existing row. -/
def padRepF (k : ℕ) (x : Tensor α) : Tensor α :=
  ⟨x.b, x.c, x.f + k, x.t, fun i c f t =>
    if f < x.f then x.data i c f t else x.data i c (x.f - 1) t⟩

/-- `x[:, :, :, k:-k]`: trim `k` frames from both ends of the time axis
(Python slicing clamps, so the resulting extent is `x.t - 2*k`, truncated
at zero). -/
def trimT (k : ℕ) (x : Tensor α) : Tensor α :=
  ⟨x.b, x.c, x.f, x.t - 2 * k, fun i c f t => x.data i c f (t + k)⟩

/-- Extent compatibility for PyTorch broadcasting: equal, or one side 1. -/
def bcompat (m n : ℕ) : Bool := m == n || m == 1 || n == 1

/-- Index adjustment for a broadcast extent: a size-1 axis always reads
index 0. -/
def bindex (m i : ℕ) : ℕ := if m = 1 then 0 else i

/-- `x * y`: elementwise product with PyTorch broadcasting; `none` models
the RuntimeError raised on incompatible extents. -/
def hmul [Mul α] (a b : Tensor α) : Option (Tensor α) :=
  if bcompat a.b b.b && bcompat a.c b.c && bcompat a.f b.f && bcompat a.t b.t then
    some ⟨max a.b b.b, max a.c b.c, max a.f b.f, max a.t b.t, fun i c f t =>
      a.data (bindex a.b i) (bindex a.c c) (bindex a.f f) (bindex a.t t) *
      b.data (bindex b.b i) (bindex b.c c) (bindex b.f f) (bindex b.t t)⟩
  else none

/-- `nn.Conv2d(cin, cout, 1, bias=False)` applied to `x`: a 1x1 convolution
with weight matrix `w` (output channel, input channel) and no bias, so each
output entry is the weighted sum of the input entries across channels at
the same spatial position. -/
def conv1x1 (cout cin : ℕ) (w : ℕ → ℕ → ℝ) (x : Tensor ℝ) : Tensor ℝ :=
  ⟨x.b, cout, x.f, x.t, fun i j f t =>
    Finset.sum (Finset.range cin) fun k => w j k * x.data i k f t⟩

/-- `torch.complex(re, im)`: pair two real tensors of identical shape into
a complex tensor. -/
def complexT (re im : Tensor ℝ) : Tensor ℂ :=
  ⟨re.b, re.c, re.f, re.t, fun i c f t => ⟨re.data i c f t, im.data i c f t⟩⟩

/-- `torch.cat([x.real, x.imag], dim=1)`: decompose a complex tensor into
real and imaginary parts and concatenate them along the channel axis. -/
def reimCat (x : Tensor ℂ) : Tensor ℝ :=
  catC (map Complex.re x) (map Complex.im x)

end Tensor

/-- `torch.sigmoid` on a single entry: `1 / (1 + exp (-z))`. -/
noncomputable def sigmoid (z : ℝ) : ℝ := 1 / (1 + Real.exp (-z))

/-- The error taxonomy of the forward/predict path: an incompatible
elementwise multiplication (PyTorch RuntimeError) or the failed
`assert` after offset trimming (AssertionError). -/
inductive NetError where
  | shapeMismatch : NetError
  | degenerateTrim : NetError
deriving DecidableEq

/-- Modelled from the spec: the shape contract of a `BaseNet` (or a
`BaseNet` followed by a 1x1 `Conv2DBNActiv`) built from the missing
`lib.layers` module — it maps a tensor with `cin` channels to one with
`cout` channels, preserving batch, frequency and time extents
(spec §4.6: "input (B,C_in,H,W) → output (B,C_out,H,W)"). -/
def ShapeContract (cin cout : ℕ) (g : Tensor ℝ → Tensor ℝ) : Prop :=
  ∀ x : Tensor ℝ, x.c = cin →
    (g x).b = x.b ∧ (g x).c = cout ∧ (g x).f = x.f ∧ (g x).t = x.t

/-- The `CascadedNet` module: its construction parameters together with
its sub-networks.  The five stage networks (built in `__init__` from
`BaseNet` and `layers.Conv2DBNActiv`, whose definitions live in the
missing `lib.layers`) are abstract tensor transformations; the two 1x1
output convolutions `out_y`, `out_v` (`nn.Conv2d(nout, nin, 1,
bias=False)`) are represented by their weight matrices. -/
structure CascadedNet where
  n_fft : ℕ
  hop_length : ℕ
  nout : ℕ
  nout_lstm : ℕ
  is_complex : Bool
  stg1_low_band_net : Tensor ℝ → Tensor ℝ
  stg1_high_band_net : Tensor ℝ → Tensor ℝ
  stg2_low_band_net : Tensor ℝ → Tensor ℝ
  stg2_high_band_net : Tensor ℝ → Tensor ℝ
  stg3_full_band_net : Tensor ℝ → Tensor ℝ
  out_y : ℕ → ℕ → ℝ
  out_v : ℕ → ℕ → ℝ

namespace CascadedNet

/-- `self.max_bin = n_fft // 2`. -/
def max_bin (net : CascadedNet) : ℕ := net.n_fft / 2

/-- `self.output_bin = n_fft // 2 + 1`. -/
def output_bin (net : CascadedNet) : ℕ := net.n_fft / 2 + 1

/-- `self.nin_lstm = self.max_bin // 2`. -/
def nin_lstm (net : CascadedNet) : ℕ := net.max_bin / 2

/-- `self.offset = 64`. -/
def offset (_ : CascadedNet) : ℕ := 64

/-- `nin = 4 if is_complex else 2`. -/
def nin (net : CascadedNet) : ℕ := if net.is_complex then 4 else 2

/-- Modelled from the spec: the shape contracts of the five stage networks,
with the channel widths of `__init__` (`lib.layers` being unavailable, the
spec's BaseNet contract is assumed for each): stage 1 maps `nin → nout//4`
per band, stage 2 maps `nout//4 + nin → nout//2` per band, stage 3 maps
`3*nout//4 + nin → nout`. -/
def Contracts (net : CascadedNet) : Prop :=
  ShapeContract net.nin (net.nout / 4) net.stg1_low_band_net ∧
  ShapeContract net.nin (net.nout / 4) net.stg1_high_band_net ∧
  ShapeContract (net.nout / 4 + net.nin) (net.nout / 2) net.stg2_low_band_net ∧
  ShapeContract (net.nout / 4 + net.nin) (net.nout / 2) net.stg2_high_band_net ∧
  ShapeContract (3 * net.nout / 4 + net.nin) net.nout net.stg3_full_band_net

/-- `x = x[:, :, :self.max_bin]` — the frequency truncation at the top of
`forward` (applied to the real input; in complex mode the real input is
`reimCat` of the complex one). -/
def xTrunc (net : CascadedNet) (x : Tensor ℝ) : Tensor ℝ :=
  Tensor.truncF net.max_bin x

/-- `bandw = x.size()[2] // 2`. -/
def bandw (net : CascadedNet) (x : Tensor ℝ) : ℕ := (net.xTrunc x).f / 2

/-- `l1_in = x[:, :, :bandw]`. -/
def l1_in (net : CascadedNet) (x : Tensor ℝ) : Tensor ℝ :=
  Tensor.truncF (net.bandw x) (net.xTrunc x)

/-- `h1_in = x[:, :, bandw:]`. -/
def h1_in (net : CascadedNet) (x : Tensor ℝ) : Tensor ℝ :=
  Tensor.highF (net.bandw x) (net.xTrunc x)

/-- `l1 = self.stg1_low_band_net(l1_in)`. -/
def l1 (net : CascadedNet) (x : Tensor ℝ) : Tensor ℝ :=
  net.stg1_low_band_net (net.l1_in x)

/-- `h1 = self.stg1_high_band_net(h1_in)`. -/
def h1 (net : CascadedNet) (x : Tensor ℝ) : Tensor ℝ :=
  net.stg1_high_band_net (net.h1_in x)

/-- `aux1 = torch.cat([l1, h1], dim=2)`. -/
def aux1 (net : CascadedNet) (x : Tensor ℝ) : Tensor ℝ :=
  Tensor.catF (net.l1 x) (net.h1 x)

/-- `l2_in = torch.cat([l1_in, l1], dim=1)`. -/
def l2_in (net : CascadedNet) (x : Tensor ℝ) : Tensor ℝ :=
  Tensor.catC (net.l1_in x) (net.l1 x)

/-- `h2_in = torch.cat([h1_in, h1], dim=1)`. -/
def h2_in (net : CascadedNet) (x : Tensor ℝ) : Tensor ℝ :=
  Tensor.catC (net.h1_in x) (net.h1 x)

/-- `l2 = self.stg2_low_band_net(l2_in)`. -/
def l2 (net : CascadedNet) (x : Tensor ℝ) : Tensor ℝ :=
  net.stg2_low_band_net (net.l2_in x)

/-- `h2 = self.stg2_high_band_net(h2_in)`. -/
def h2 (net : CascadedNet) (x : Tensor ℝ) : Tensor ℝ :=
  net.stg2_high_band_net (net.h2_in x)

/-- `aux2 = torch.cat([l2, h2], dim=2)`. -/
def aux2 (net : CascadedNet) (x : Tensor ℝ) : Tensor ℝ :=
  Tensor.catF (net.l2 x) (net.h2 x)

/-- `f3_in = torch.cat([x, aux1, aux2], dim=1)`. -/
def f3_in (net : CascadedNet) (x : Tensor ℝ) : Tensor ℝ :=
  Tensor.catC (net.xTrunc x) (Tensor.catC (net.aux1 x) (net.aux2 x))

/-- `f3 = self.stg3_full_band_net(f3_in)`. -/
def f3 (net : CascadedNet) (x : Tensor ℝ) : Tensor ℝ :=
  net.stg3_full_band_net (net.f3_in x)

/-- `self.out_y(f3)`: the raw mask for source y. -/
def raw_y (net : CascadedNet) (x : Tensor ℝ) : Tensor ℝ :=
  Tensor.conv1x1 net.nin net.nout net.out_y (net.f3 x)

/-- `self.out_v(f3)`: the raw mask for source v. -/
def raw_v (net : CascadedNet) (x : Tensor ℝ) : Tensor ℝ :=
  Tensor.conv1x1 net.nin net.nout net.out_v (net.f3 x)

/-- `F.pad(input=mask, pad=(0, 0, 0, self.output_bin - mask.size()[2]),
mode='replicate')`. -/
def padOut (net : CascadedNet) {α : Type} (m : Tensor α) : Tensor α :=
  Tensor.padRepF (net.output_bin - m.f) m

/-- One entry of `bounded_mask`: `tanh(|z|) * z / (|z| + eps)`. -/
noncomputable def boundedEntry (z : ℂ) (eps : ℝ) : ℂ :=
  (Real.tanh (Complex.abs z) : ℂ) * z / ((Complex.abs z + eps : ℝ) : ℂ)

/-- `bounded_mask(mask, eps=1e-8)`:
`torch.tanh(mask_mag) * mask / (mask_mag + eps)` with
`mask_mag = torch.abs(mask)`, applied elementwise. -/
noncomputable def bounded_mask (mask : Tensor ℂ) (eps : ℝ) : Tensor ℂ :=
  Tensor.map (fun z => boundedEntry z eps) mask

/-- `forward` in magnitude mode (`is_complex=False`): raw masks through
elementwise `sigmoid`, then replicate-padded to `output_bin`. -/
noncomputable def forwardMag (net : CascadedNet) (x : Tensor ℝ) :
    Tensor ℝ × Tensor ℝ :=
  (net.padOut (Tensor.map sigmoid (net.raw_y x)),
   net.padOut (Tensor.map sigmoid (net.raw_v x)))

/-- `forward` in complex mode (`is_complex=True`): the complex input is
decomposed (`torch.cat([x.real, x.imag], dim=1)`), each raw mask is
reinterpreted (`torch.complex(mask[:, :2], mask[:, 2:])`), bounded, and
replicate-padded to `output_bin`. -/
noncomputable def forwardCplx (net : CascadedNet) (x : Tensor ℂ) :
    Tensor ℂ × Tensor ℂ :=
  (net.padOut (bounded_mask
      (Tensor.complexT (Tensor.truncC 2 (net.raw_y (Tensor.reimCat x)))
        (Tensor.highC 2 (net.raw_y (Tensor.reimCat x)))) (1e-8)),
   net.padOut (bounded_mask
      (Tensor.complexT (Tensor.truncC 2 (net.raw_v (Tensor.reimCat x)))
        (Tensor.highC 2 (net.raw_v (Tensor.reimCat x)))) (1e-8)))

end CascadedNet

/-- The trimming stage shared by `predict_mask`: when `offset > 0`, trim
`offset` frames from both ends of the time axis of each mask and fail
(the `assert`) unless both results keep a positive time extent. -/
def maskStage {α : Type} (offset : ℕ) (my mv : Tensor α) :
    Except NetError (Tensor α × Tensor α) :=
  if 0 < offset then
    if 0 < (Tensor.trimT offset my).t ∧ 0 < (Tensor.trimT offset mv).t then
      Except.ok (Tensor.trimT offset my, Tensor.trimT offset mv)
    else Except.error NetError.degenerateTrim
  else Except.ok (my, mv)

/-- The multiply-and-trim stage of `predict`: `pred = x * mask` (broadcast
multiplication, which can raise a shape error), then the same trimming and
`assert` as `maskStage`. -/
def predStage {α : Type} [Mul α] (offset : ℕ) (x my mv : Tensor α) :
    Except NetError (Tensor α × Tensor α) :=
  match Tensor.hmul x my, Tensor.hmul x mv with
  | some py, some pv =>
      if 0 < offset then
        if 0 < (Tensor.trimT offset py).t ∧ 0 < (Tensor.trimT offset pv).t then
          Except.ok (Tensor.trimT offset py, Tensor.trimT offset pv)
        else Except.error NetError.degenerateTrim
      else Except.ok (py, pv)
  | _, _ => Except.error NetError.shapeMismatch

namespace CascadedNet

/-- `predict_mask` in magnitude mode. -/
noncomputable def predict_maskMag (net : CascadedNet) (x : Tensor ℝ) :
    Except NetError (Tensor ℝ × Tensor ℝ) :=
  maskStage net.offset (net.forwardMag x).1 (net.forwardMag x).2

/-- `predict` in magnitude mode. -/
noncomputable def predictMag (net : CascadedNet) (x : Tensor ℝ) :
    Except NetError (Tensor ℝ × Tensor ℝ) :=
  predStage net.offset x (net.forwardMag x).1 (net.forwardMag x).2

/-- `predict_mask` in complex mode. -/
noncomputable def predict_maskCplx (net : CascadedNet) (x : Tensor ℂ) :
    Except NetError (Tensor ℂ × Tensor ℂ) :=
  maskStage net.offset (net.forwardCplx x).1 (net.forwardCplx x).2

/-- `predict` in complex mode. -/
noncomputable def predictCplx (net : CascadedNet) (x : Tensor ℂ) :
    Except NetError (Tensor ℂ × Tensor ℂ) :=
  predStage net.offset x (net.forwardCplx x).1 (net.forwardCplx x).2

end CascadedNet

namespace CascadedNet

/-! Shape propagation through `forward`, under the spec-modelled shape
contracts of the stage networks, for an input with `nin` channels and at
least `max_bin` frequency bins. -/

variable (net : CascadedNet) (x : Tensor ℝ)

theorem xTrunc_shape (hf : net.max_bin ≤ x.f) :
    (net.xTrunc x).b = x.b ∧ (net.xTrunc x).c = x.c ∧
    (net.xTrunc x).f = net.max_bin ∧ (net.xTrunc x).t = x.t :=
  ⟨rfl, rfl, min_eq_left hf, rfl⟩

theorem bandw_eq (hf : net.max_bin ≤ x.f) : net.bandw x = net.max_bin / 2 := by
  show (net.xTrunc x).f / 2 = net.max_bin / 2
  rw [(net.xTrunc_shape x hf).2.2.1]

theorem l1_in_shape (hf : net.max_bin ≤ x.f) :
    (net.l1_in x).b = x.b ∧ (net.l1_in x).c = x.c ∧
    (net.l1_in x).f = net.max_bin / 2 ∧ (net.l1_in x).t = x.t := by
  refine ⟨rfl, rfl, ?_, rfl⟩
  show min (net.bandw x) (net.xTrunc x).f = net.max_bin / 2
  rw [net.bandw_eq x hf, (net.xTrunc_shape x hf).2.2.1]
  omega

theorem h1_in_shape (hf : net.max_bin ≤ x.f) :
    (net.h1_in x).b = x.b ∧ (net.h1_in x).c = x.c ∧
    (net.h1_in x).f = net.max_bin - net.max_bin / 2 ∧ (net.h1_in x).t = x.t := by
  refine ⟨rfl, rfl, ?_, rfl⟩
  show (net.xTrunc x).f - net.bandw x = net.max_bin - net.max_bin / 2
  rw [net.bandw_eq x hf, (net.xTrunc_shape x hf).2.2.1]

theorem l1_shape (hC : net.Contracts) (hc : x.c = net.nin) (hf : net.max_bin ≤ x.f) :
    (net.l1 x).b = x.b ∧ (net.l1 x).c = net.nout / 4 ∧
    (net.l1 x).f = net.max_bin / 2 ∧ (net.l1 x).t = x.t := by
  obtain ⟨hb, hcc, hff, ht⟩ := net.l1_in_shape x hf
  obtain ⟨gb, gc, gf, gt⟩ := hC.1 (net.l1_in x) (hcc.trans hc)
  exact ⟨gb.trans hb, gc, gf.trans hff, gt.trans ht⟩

theorem h1_shape (hC : net.Contracts) (hc : x.c = net.nin) (hf : net.max_bin ≤ x.f) :
    (net.h1 x).b = x.b ∧ (net.h1 x).c = net.nout / 4 ∧
    (net.h1 x).f = net.max_bin - net.max_bin / 2 ∧ (net.h1 x).t = x.t := by
  obtain ⟨hb, hcc, hff, ht⟩ := net.h1_in_shape x hf
  obtain ⟨gb, gc, gf, gt⟩ := hC.2.1 (net.h1_in x) (hcc.trans hc)
  exact ⟨gb.trans hb, gc, gf.trans hff, gt.trans ht⟩

theorem aux1_shape (hC : net.Contracts) (hc : x.c = net.nin) (hf : net.max_bin ≤ x.f) :
    (net.aux1 x).b = x.b ∧ (net.aux1 x).c = net.nout / 4 ∧
    (net.aux1 x).f = net.max_bin ∧ (net.aux1 x).t = x.t := by
  obtain ⟨lb, lc, lf, lt⟩ := net.l1_shape x hC hc hf
  obtain ⟨hb, hcc, hff, ht⟩ := net.h1_shape x hC hc hf
  refine ⟨lb, lc, ?_, lt⟩
  show (net.l1 x).f + (net.h1 x).f = net.max_bin
  rw [lf, hff]
  omega

theorem l2_in_shape (hC : net.Contracts) (hc : x.c = net.nin) (hf : net.max_bin ≤ x.f) :
    (net.l2_in x).b = x.b ∧ (net.l2_in x).c = net.nin + net.nout / 4 ∧
    (net.l2_in x).f = net.max_bin / 2 ∧ (net.l2_in x).t = x.t := by
  obtain ⟨ib, ic, iff1, it⟩ := net.l1_in_shape x hf
  obtain ⟨lb, lc, lf, lt⟩ := net.l1_shape x hC hc hf
  refine ⟨ib, ?_, iff1, it⟩
  show (net.l1_in x).c + (net.l1 x).c = net.nin + net.nout / 4
  rw [ic, hc, lc]

theorem h2_in_shape (hC : net.Contracts) (hc : x.c = net.nin) (hf : net.max_bin ≤ x.f) :
    (net.h2_in x).b = x.b ∧ (net.h2_in x).c = net.nin + net.nout / 4 ∧
    (net.h2_in x).f = net.max_bin - net.max_bin / 2 ∧ (net.h2_in x).t = x.t := by
  obtain ⟨ib, ic, iff1, it⟩ := net.h1_in_shape x hf
  obtain ⟨hb, hcc, hff, ht⟩ := net.h1_shape x hC hc hf
  refine ⟨ib, ?_, iff1, it⟩
  show (net.h1_in x).c + (net.h1 x).c = net.nin + net.nout / 4
  rw [ic, hc, hcc]

theorem l2_shape (hC : net.Contracts) (hc : x.c = net.nin) (hf : net.max_bin ≤ x.f) :
    (net.l2 x).b = x.b ∧ (net.l2 x).c = net.nout / 2 ∧
    (net.l2 x).f = net.max_bin / 2 ∧ (net.l2 x).t = x.t := by
  obtain ⟨ib, ic, iff1, it⟩ := net.l2_in_shape x hC hc hf
  obtain ⟨gb, gc, gf, gt⟩ := hC.2.2.1 (net.l2_in x) (ic.trans (Nat.add_comm _ _))
  exact ⟨gb.trans ib, gc, gf.trans iff1, gt.trans it⟩

theorem h2_shape (hC : net.Contracts) (hc : x.c = net.nin) (hf : net.max_bin ≤ x.f) :
    (net.h2 x).b = x.b ∧ (net.h2 x).c = net.nout / 2 ∧
    (net.h2 x).f = net.max_bin - net.max_bin / 2 ∧ (net.h2 x).t = x.t := by
  obtain ⟨ib, ic, iff1, it⟩ := net.h2_in_shape x hC hc hf
  obtain ⟨gb, gc, gf, gt⟩ := hC.2.2.2.1 (net.h2_in x) (ic.trans (Nat.add_comm _ _))
  exact ⟨gb.trans ib, gc, gf.trans iff1, gt.trans it⟩

theorem aux2_shape (hC : net.Contracts) (hc : x.c = net.nin) (hf : net.max_bin ≤ x.f) :
    (net.aux2 x).b = x.b ∧ (net.aux2 x).c = net.nout / 2 ∧
    (net.aux2 x).f = net.max_bin ∧ (net.aux2 x).t = x.t := by
  obtain ⟨lb, lc, lf, lt⟩ := net.l2_shape x hC hc hf
  obtain ⟨hb, hcc, hff, ht⟩ := net.h2_shape x hC hc hf
  refine ⟨lb, lc, ?_, lt⟩
  show (net.l2 x).f + (net.h2 x).f = net.max_bin
  rw [lf, hff]
  omega

theorem f3_in_shape (hC : net.Contracts) (hc : x.c = net.nin) (hf : net.max_bin ≤ x.f) :
    (net.f3_in x).b = x.b ∧
    (net.f3_in x).c = net.nin + (net.nout / 4 + net.nout / 2) ∧
    (net.f3_in x).f = net.max_bin ∧ (net.f3_in x).t = x.t := by
  obtain ⟨tb, tc, tf, tt⟩ := net.xTrunc_shape x hf
  obtain ⟨ab, ac, af, at1⟩ := net.aux1_shape x hC hc hf
  obtain ⟨bb, bc, bf, bt⟩ := net.aux2_shape x hC hc hf
  refine ⟨tb, ?_, tf, tt⟩
  show (net.xTrunc x).c + ((net.aux1 x).c + (net.aux2 x).c) =
    net.nin + (net.nout / 4 + net.nout / 2)
  rw [tc, hc, ac, bc]

theorem f3_shape (hC : net.Contracts) (hc : x.c = net.nin) (hf : net.max_bin ≤ x.f)
    (hq : net.nout / 4 + net.nout / 2 = 3 * net.nout / 4) :
    (net.f3 x).b = x.b ∧ (net.f3 x).c = net.nout ∧
    (net.f3 x).f = net.max_bin ∧ (net.f3 x).t = x.t := by
  obtain ⟨ib, ic, iff1, it⟩ := net.f3_in_shape x hC hc hf
  obtain ⟨gb, gc, gf, gt⟩ := hC.2.2.2.2 (net.f3_in x)
    (by rw [ic, hq]; exact Nat.add_comm _ _)
  exact ⟨gb.trans ib, gc, gf.trans iff1, gt.trans it⟩

theorem raw_y_shape (hC : net.Contracts) (hc : x.c = net.nin) (hf : net.max_bin ≤ x.f)
    (hq : net.nout / 4 + net.nout / 2 = 3 * net.nout / 4) :
    (net.raw_y x).b = x.b ∧ (net.raw_y x).c = net.nin ∧
    (net.raw_y x).f = net.max_bin ∧ (net.raw_y x).t = x.t := by
  obtain ⟨gb, gc, gf, gt⟩ := net.f3_shape x hC hc hf hq
  exact ⟨gb, rfl, gf, gt⟩

theorem raw_v_shape (hC : net.Contracts) (hc : x.c = net.nin) (hf : net.max_bin ≤ x.f)
    (hq : net.nout / 4 + net.nout / 2 = 3 * net.nout / 4) :
    (net.raw_v x).b = x.b ∧ (net.raw_v x).c = net.nin ∧
    (net.raw_v x).f = net.max_bin ∧ (net.raw_v x).t = x.t := by
  obtain ⟨gb, gc, gf, gt⟩ := net.f3_shape x hC hc hf hq
  exact ⟨gb, rfl, gf, gt⟩

theorem padOut_shape {α : Type} (m : Tensor α) (hm : m.f = net.max_bin) :
    (net.padOut m).b = m.b ∧ (net.padOut m).c = m.c ∧
    (net.padOut m).f = net.output_bin ∧ (net.padOut m).t = m.t := by
  refine ⟨rfl, rfl, ?_, rfl⟩
  show m.f + (net.output_bin - m.f) = net.output_bin
  rw [hm]
  simp only [max_bin, output_bin]
  omega

theorem forwardMag_shape (hC : net.Contracts) (hc : x.c = net.nin)
    (hf : net.max_bin ≤ x.f)
    (hq : net.nout / 4 + net.nout / 2 = 3 * net.nout / 4) :
    ((net.forwardMag x).1.b = x.b ∧ (net.forwardMag x).1.c = net.nin ∧
     (net.forwardMag x).1.f = net.output_bin ∧ (net.forwardMag x).1.t = x.t) ∧
    ((net.forwardMag x).2.b = x.b ∧ (net.forwardMag x).2.c = net.nin ∧
     (net.forwardMag x).2.f = net.output_bin ∧ (net.forwardMag x).2.t = x.t) := by
  obtain ⟨yb, yc, yf, yt⟩ := net.raw_y_shape x hC hc hf hq
  obtain ⟨vb, vc, vf, vt⟩ := net.raw_v_shape x hC hc hf hq
  obtain ⟨pb, pc, pf, pt⟩ := net.padOut_shape (Tensor.map sigmoid (net.raw_y x)) yf
  obtain ⟨qb, qc, qf, qt⟩ := net.padOut_shape (Tensor.map sigmoid (net.raw_v x)) vf
  exact ⟨⟨pb.trans yb, pc.trans yc, pf, pt.trans yt⟩,
         ⟨qb.trans vb, qc.trans vc, qf, qt.trans vt⟩⟩

theorem forwardCplx_shape (hC : net.Contracts) (hcp : net.is_complex = true)
    (x2 : Tensor ℂ) (hc : x2.c = 2) (hf : net.max_bin ≤ x2.f)
    (hq : net.nout / 4 + net.nout / 2 = 3 * net.nout / 4) :
    ((net.forwardCplx x2).1.b = x2.b ∧ (net.forwardCplx x2).1.c = 2 ∧
     (net.forwardCplx x2).1.f = net.output_bin ∧ (net.forwardCplx x2).1.t = x2.t) ∧
    ((net.forwardCplx x2).2.b = x2.b ∧ (net.forwardCplx x2).2.c = 2 ∧
     (net.forwardCplx x2).2.f = net.output_bin ∧ (net.forwardCplx x2).2.t = x2.t) := by
  have hxc : (Tensor.reimCat x2).c = net.nin := by
    show x2.c + x2.c = net.nin
    rw [hc]
    simp [nin, hcp]
  have hxf : net.max_bin ≤ (Tensor.reimCat x2).f := hf
  obtain ⟨yb, yc, yf, yt⟩ := net.raw_y_shape (Tensor.reimCat x2) hC hxc hxf hq
  obtain ⟨vb, vc, vf, vt⟩ := net.raw_v_shape (Tensor.reimCat x2) hC hxc hxf hq
  obtain ⟨pb, pc, pf, pt⟩ := net.padOut_shape (bounded_mask
    (Tensor.complexT (Tensor.truncC 2 (net.raw_y (Tensor.reimCat x2)))
      (Tensor.highC 2 (net.raw_y (Tensor.reimCat x2)))) (1e-8)) yf
  obtain ⟨qb, qc, qf, qt⟩ := net.padOut_shape (bounded_mask
    (Tensor.complexT (Tensor.truncC 2 (net.raw_v (Tensor.reimCat x2)))
      (Tensor.highC 2 (net.raw_v (Tensor.reimCat x2)))) (1e-8)) vf
  have hyc : min 2 (net.raw_y (Tensor.reimCat x2)).c = 2 := by
    rw [yc]
    simp [nin, hcp]
  have hvc : min 2 (net.raw_v (Tensor.reimCat x2)).c = 2 := by
    rw [vc]
    simp [nin, hcp]
  exact ⟨⟨pb.trans yb, pc.trans hyc, pf, pt.trans yt⟩,
         ⟨qb.trans vb, qc.trans hvc, qf, qt.trans vt⟩⟩

end CascadedNet

namespace Tensor

/-- On an in-range index, broadcasting reads the index itself (a size-1
axis admits only index 0). -/
theorem bindex_lt (m i : ℕ) (h : i < m) : bindex m i = i := by
  unfold bindex
  split <;> omega

/-- Elementwise multiplication of same-shaped tensors succeeds and is the
pointwise product on in-range indices. -/
theorem hmul_eq_shape {α : Type} [Mul α] (a b : Tensor α)
    (h1 : a.b = b.b) (h2 : a.c = b.c) (h3 : a.f = b.f) (h4 : a.t = b.t) :
    ∃ p, hmul a b = some p ∧ p.b = a.b ∧ p.c = a.c ∧ p.f = a.f ∧ p.t = a.t ∧
      ∀ i c f t, i < a.b → c < a.c → f < a.f → t < a.t →
        p.data i c f t = a.data i c f t * b.data i c f t := by
  have hcond : (bcompat a.b b.b && bcompat a.c b.c &&
      bcompat a.f b.f && bcompat a.t b.t) = true := by
    simp [bcompat, h1, h2, h3, h4]
  refine ⟨_, by rw [hmul, if_pos hcond], ?_, ?_, ?_, ?_, ?_⟩
  · show max a.b b.b = a.b
    omega
  · show max a.c b.c = a.c
    omega
  · show max a.f b.f = a.f
    omega
  · show max a.t b.t = a.t
    omega
  · intro i c f t hi hc hf ht
    show a.data (bindex a.b i) (bindex a.c c) (bindex a.f f) (bindex a.t t) *
      b.data (bindex b.b i) (bindex b.c c) (bindex b.f f) (bindex b.t t) = _
    rw [bindex_lt _ _ hi, bindex_lt _ _ hc, bindex_lt _ _ hf, bindex_lt _ _ ht,
      bindex_lt _ _ (h1 ▸ hi), bindex_lt _ _ (h2 ▸ hc), bindex_lt _ _ (h3 ▸ hf),
      bindex_lt _ _ (h4 ▸ ht)]

/-- Elementwise multiplication fails (the PyTorch RuntimeError) when the
frequency extents differ and neither is 1. -/
theorem hmul_none_f {α : Type} [Mul α] (a b : Tensor α)
    (h : a.f ≠ b.f) (h1 : a.f ≠ 1) (h2 : b.f ≠ 1) : hmul a b = none := by
  have hcf : bcompat a.f b.f = false := by
    simp [bcompat, h, h1, h2]
  have hcond : (bcompat a.b b.b && bcompat a.c b.c &&
      bcompat a.f b.f && bcompat a.t b.t) = false := by
    simp [hcf]
  rw [hmul, if_neg]
  simp [hcond]

end Tensor

theorem maskStage_error {α : Type} (k : ℕ) (my mv : Tensor α) (hk : 0 < k)
    (h1 : my.t ≤ 2 * k) :
    maskStage k my mv = Except.error NetError.degenerateTrim := by
  have hcon : ¬(0 < (Tensor.trimT k my).t ∧ 0 < (Tensor.trimT k mv).t) := by
    intro h
    have hy : 0 < my.t - 2 * k := h.1
    omega
  simp only [maskStage, if_pos hk, if_neg hcon]

theorem maskStage_ok {α : Type} (k : ℕ) (my mv : Tensor α) (hk : 0 < k)
    (h1 : 2 * k < my.t) (h2 : 2 * k < mv.t) :
    maskStage k my mv = Except.ok (Tensor.trimT k my, Tensor.trimT k mv) := by
  have hcon : 0 < (Tensor.trimT k my).t ∧ 0 < (Tensor.trimT k mv).t :=
    ⟨show 0 < my.t - 2 * k by omega, show 0 < mv.t - 2 * k by omega⟩
  simp only [maskStage, if_pos hk, if_pos hcon]

theorem predStage_error_shape {α : Type} [Mul α] (k : ℕ) (x my mv : Tensor α)
    (h : Tensor.hmul x my = none) :
    predStage k x my mv = Except.error NetError.shapeMismatch := by
  simp only [predStage, h]

theorem predStage_error_trim {α : Type} [Mul α] (k : ℕ) (x my mv : Tensor α)
    (py pv : Tensor α) (hy : Tensor.hmul x my = some py)
    (hv : Tensor.hmul x mv = some pv) (hk : 0 < k) (h1 : py.t ≤ 2 * k) :
    predStage k x my mv = Except.error NetError.degenerateTrim := by
  have hcon : ¬(0 < (Tensor.trimT k py).t ∧ 0 < (Tensor.trimT k pv).t) := by
    intro h
    have hp : 0 < py.t - 2 * k := h.1
    omega
  simp only [predStage, hy, hv, if_pos hk, if_neg hcon]

theorem predStage_ok {α : Type} [Mul α] (k : ℕ) (x my mv : Tensor α)
    (py pv : Tensor α) (hy : Tensor.hmul x my = some py)
    (hv : Tensor.hmul x mv = some pv) (hk : 0 < k)
    (h1 : 2 * k < py.t) (h2 : 2 * k < pv.t) :
    predStage k x my mv = Except.ok (Tensor.trimT k py, Tensor.trimT k pv) := by
  have hcon : 0 < (Tensor.trimT k py).t ∧ 0 < (Tensor.trimT k pv).t :=
    ⟨show 0 < py.t - 2 * k by omega, show 0 < pv.t - 2 * k by omega⟩
  simp only [predStage, hy, hv, if_pos hk, if_pos hcon]

/-! Scalar bounds for the two mask activations. -/

theorem sigmoid_nonneg (z : ℝ) : 0 ≤ sigmoid z := by
  unfold sigmoid
  have h := Real.exp_pos (-z)
  positivity

theorem sigmoid_le_one (z : ℝ) : sigmoid z ≤ 1 := by
  unfold sigmoid
  have h := Real.exp_pos (-z)
  rw [div_le_one (by linarith)]
  linarith

theorem tanh_nonneg_of_nonneg {r : ℝ} (hr : 0 ≤ r) : 0 ≤ Real.tanh r := by
  rw [Real.tanh_eq_sinh_div_cosh]
  exact div_nonneg (Real.sinh_nonneg_iff.2 hr) (Real.cosh_pos r).le

theorem tanh_lt_one (r : ℝ) : Real.tanh r < 1 := by
  rw [Real.tanh_eq_sinh_div_cosh, div_lt_one (Real.cosh_pos r)]
  exact Real.sinh_lt_cosh r

/-- The magnitude of a bounded-mask entry: `tanh(|z|) * z / (|z| + eps)`
has absolute value strictly below 1 for any positive `eps`. -/
theorem bounded_entry_abs_lt_one (z : ℂ) (eps : ℝ) (heps : 0 < eps) :
    Complex.abs (CascadedNet.boundedEntry z eps) < 1 := by
  have hr : 0 ≤ Complex.abs z := Complex.abs.nonneg z
  unfold CascadedNet.boundedEntry
  rw [map_div₀, map_mul, Complex.abs_ofReal, Complex.abs_ofReal,
    abs_of_nonneg (tanh_nonneg_of_nonneg hr), abs_of_nonneg (by linarith),
    div_lt_one (by linarith)]
  calc Real.tanh (Complex.abs z) * Complex.abs z ≤ 1 * Complex.abs z :=
        mul_le_mul_of_nonneg_right (tanh_lt_one _).le hr
    _ = Complex.abs z := one_mul _
    _ < Complex.abs z + eps := by linarith

/-- A zero raw-mask entry is mapped to exactly zero by the bounded-mask
formula. -/
theorem bounded_entry_zero (eps : ℝ) : CascadedNet.boundedEntry 0 eps = 0 := by
  unfold CascadedNet.boundedEntry
  simp

/-- Replicate-padding: every appended row repeats the last original row. -/
theorem padRepF_high {α : Type} (k : ℕ) (m : Tensor α) (i c f t : ℕ)
    (hf : m.f ≤ f) (h0 : 0 < m.f) :
    (Tensor.padRepF k m).data i c f t =
      (Tensor.padRepF k m).data i c (m.f - 1) t := by
  have h1 : ¬ f < m.f := by omega
  have h2 : m.f - 1 < m.f := by omega
  show (if f < m.f then m.data i c f t else m.data i c (m.f - 1) t) =
    (if m.f - 1 < m.f then m.data i c (m.f - 1) t else m.data i c (m.f - 1) t)
  rw [if_neg h1, if_pos h2]

/-- Joint success of the multiply-and-trim and trim-only stages on
same-shaped inputs: both trim the same `k` frames from both time ends,
yield equal shapes, and the product stage equals the input (read `k`
frames in) times the trimmed mask. -/
theorem predict_from_masks {α : Type} [Mul α] (k : ℕ) (x my mv : Tensor α)
    (hk : 0 < k)
    (h1 : my.b = x.b) (h2 : my.c = x.c) (h3 : my.f = x.f) (h4 : my.t = x.t)
    (h5 : mv.b = x.b) (h6 : mv.c = x.c) (h7 : mv.f = x.f) (h8 : mv.t = x.t)
    (ht : 2 * k < x.t) :
    ∃ my2 mv2 py pv,
      maskStage k my mv = Except.ok (my2, mv2) ∧
      predStage k x my mv = Except.ok (py, pv) ∧
      my2.b = x.b ∧ my2.c = x.c ∧ my2.f = x.f ∧ my2.t = x.t - 2 * k ∧
      mv2.b = x.b ∧ mv2.c = x.c ∧ mv2.f = x.f ∧ mv2.t = x.t - 2 * k ∧
      py.b = my2.b ∧ py.c = my2.c ∧ py.f = my2.f ∧ py.t = my2.t ∧
      pv.b = mv2.b ∧ pv.c = mv2.c ∧ pv.f = mv2.f ∧ pv.t = mv2.t ∧
      (∀ i c f t, my2.data i c f t = my.data i c f (t + k)) ∧
      (∀ i c f t, mv2.data i c f t = mv.data i c f (t + k)) ∧
      (∀ i c f t, i < py.b → c < py.c → f < py.f → t < py.t →
        py.data i c f t = x.data i c f (t + k) * my2.data i c f t) ∧
      (∀ i c f t, i < pv.b → c < pv.c → f < pv.f → t < pv.t →
        pv.data i c f t = x.data i c f (t + k) * mv2.data i c f t) := by
  obtain ⟨p, hp, pb, pc, pf, pt, pdata⟩ :=
    Tensor.hmul_eq_shape x my h1.symm h2.symm h3.symm h4.symm
  obtain ⟨q, hq, qb, qc, qf, qt, qdata⟩ :=
    Tensor.hmul_eq_shape x mv h5.symm h6.symm h7.symm h8.symm
  refine ⟨Tensor.trimT k my, Tensor.trimT k mv, Tensor.trimT k p, Tensor.trimT k q,
    maskStage_ok k my mv hk (by omega) (by omega),
    predStage_ok k x my mv p q hp hq hk (by omega) (by omega),
    h1, h2, h3, show my.t - 2 * k = x.t - 2 * k by omega,
    h5, h6, h7, show mv.t - 2 * k = x.t - 2 * k by omega,
    pb.trans h1.symm, pc.trans h2.symm, pf.trans h3.symm,
    show p.t - 2 * k = my.t - 2 * k by omega,
    qb.trans h5.symm, qc.trans h6.symm, qf.trans h7.symm,
    show q.t - 2 * k = mv.t - 2 * k by omega,
    fun i c f t => rfl, fun i c f t => rfl, ?_, ?_⟩
  · intro i c f t hi hc hff htt
    have hi2 : i < p.b := hi
    have hc2 : c < p.c := hc
    have hf2 : f < p.f := hff
    have ht2 : t < p.t - 2 * k := htt
    show p.data i c f (t + k) = x.data i c f (t + k) * my.data i c f (t + k)
    exact pdata i c f (t + k) (by omega) (by omega) (by omega) (by omega)
  · intro i c f t hi hc hff htt
    have hi2 : i < q.b := hi
    have hc2 : c < q.c := hc
    have hf2 : f < q.f := hff
    have ht2 : t < q.t - 2 * k := htt
    show q.data i c f (t + k) = x.data i c f (t + k) * mv.data i c f (t + k)
    exact qdata i c f (t + k) (by omega) (by omega) (by omega) (by omega)

/-! Concrete instantiations used to exercise the theorems: all-zero stage
networks satisfying the spec-modelled shape contracts, zero output-conv
weights, and all-zero or indicator inputs. -/

/-- A concrete stage network: all-zero output with `cout` channels and the
input's other extents. -/
def constNet (cout : ℕ) : Tensor ℝ → Tensor ℝ :=
  fun x => ⟨x.b, cout, x.f, x.t, fun _ _ _ _ => 0⟩

theorem constNet_contract (cin cout : ℕ) : ShapeContract cin cout (constNet cout) :=
  fun _ _ => ⟨rfl, rfl, rfl, rfl⟩

/-- All-zero real tensor of a given shape. -/
def zeros (b c f t : ℕ) : Tensor ℝ := ⟨b, c, f, t, fun _ _ _ _ => 0⟩

/-- All-zero complex tensor of a given shape. -/
def zerosC (b c f t : ℕ) : Tensor ℂ := ⟨b, c, f, t, fun _ _ _ _ => 0⟩

/-- A concrete magnitude-mode `CascadedNet` with `n_fft=2048` and the
default widths `nout=32`, `nout_lstm=128`. -/
def net2048 : CascadedNet where
  n_fft := 2048
  hop_length := 1024
  nout := 32
  nout_lstm := 128
  is_complex := false
  stg1_low_band_net := constNet 8
  stg1_high_band_net := constNet 8
  stg2_low_band_net := constNet 16
  stg2_high_band_net := constNet 16
  stg3_full_band_net := constNet 32
  out_y := fun _ _ => 0
  out_v := fun _ _ => 0

theorem net2048_contracts : net2048.Contracts :=
  ⟨constNet_contract _ _, constNet_contract _ _, constNet_contract _ _,
   constNet_contract _ _, constNet_contract _ _⟩

/-- A small concrete magnitude-mode net (`n_fft=4`, `nout=4`). -/
def net4 : CascadedNet where
  n_fft := 4
  hop_length := 2
  nout := 4
  nout_lstm := 4
  is_complex := false
  stg1_low_band_net := constNet 1
  stg1_high_band_net := constNet 1
  stg2_low_band_net := constNet 2
  stg2_high_band_net := constNet 2
  stg3_full_band_net := constNet 4
  out_y := fun _ _ => 0
  out_v := fun _ _ => 0

theorem net4_contracts : net4.Contracts :=
  ⟨constNet_contract _ _, constNet_contract _ _, constNet_contract _ _,
   constNet_contract _ _, constNet_contract _ _⟩

/-- A small concrete complex-mode net (`n_fft=4`, `nout=4`,
`is_complex=true`). -/
def net4c : CascadedNet where
  n_fft := 4
  hop_length := 2
  nout := 4
  nout_lstm := 4
  is_complex := true
  stg1_low_band_net := constNet 1
  stg1_high_band_net := constNet 1
  stg2_low_band_net := constNet 2
  stg2_high_band_net := constNet 2
  stg3_full_band_net := constNet 4
  out_y := fun _ _ => 0
  out_v := fun _ _ => 0

theorem net4c_contracts : net4c.Contracts :=
  ⟨constNet_contract _ _, constNet_contract _ _, constNet_contract _ _,
   constNet_contract _ _, constNet_contract _ _⟩

/-- Input for the `predict` counterexample: shape (1,2,3,129), value 1 on
the last frequency row and 0 elsewhere. -/
def xC1 : Tensor ℝ := ⟨1, 2, 3, 129, fun _ _ f _ => if f = 2 then 1 else 0⟩

/-- Reads the value of the first returned tensor at an index, when the
call succeeded. -/
def peekY (e : Except NetError (Tensor ℝ × Tensor ℝ)) (i c f t : ℕ) : Option ℝ :=
  match e with
  | Except.ok p => some (p.1.data i c f t)
  | Except.error _ => none

theorem sigmoid_zero : sigmoid 0 = 1 / 2 := by
  unfold sigmoid
  rw [neg_zero, Real.exp_zero]
  norm_num

theorem shape_eq {α : Type} (x : Tensor α) (b c f t : ℕ)
    (hb : x.b = b) (hc : x.c = c) (hf : x.f = f) (ht : x.t = t) :
    x.shape = (b, c, f, t) := by
  show (x.b, x.c, x.f, x.t) = (b, c, f, t)
  rw [hb, hc, hf, ht]

/-- The replicate-padding used by `forward`: above the mask's computed
rows, every row equals its last computed row (`max_bin - 1` when the mask
has `max_bin` rows). -/
theorem padOut_rep {α : Type} (net : CascadedNet) (m : Tensor α)
    (hm : m.f = net.max_bin) (h0 : 0 < net.max_bin) (i c f t : ℕ)
    (hf : net.max_bin ≤ f) :
    (net.padOut m).data i c f t = (net.padOut m).data i c (net.max_bin - 1) t := by
  have h1 : m.f ≤ f := by omega
  have h2 : 0 < m.f := by omega
  have hrep := padRepF_high (net.output_bin - m.f) m i c f t h1 h2
  calc (net.padOut m).data i c f t
      = (net.padOut m).data i c (m.f - 1) t := hrep
    _ = (net.padOut m).data i c (net.max_bin - 1) t := by rw [hm]

/-- Below the original extent, replicate-padding leaves entries unchanged. -/
theorem padRepF_low {α : Type} (k : ℕ) (m : Tensor α) (i c f t : ℕ)
    (h : f < m.f) :
    (Tensor.padRepF k m).data i c f t = m.data i c f t := by
  show (if f < m.f then m.data i c f t else m.data i c (m.f - 1) t) =
    m.data i c f t
  rw [if_pos h]

/-- Every entry of a replicate-padded elementwise map is the mapped image
of some entry of the underlying tensor. -/
theorem padRepF_map_entry {α β : Type} (k : ℕ) (g : α → β) (r : Tensor α)
    (i c f t : ℕ) :
    ∃ i2 c2 f2 t2, (Tensor.padRepF k (Tensor.map g r)).data i c f t =
      g (r.data i2 c2 f2 t2) := by
  show ∃ i2 c2 f2 t2,
    (if f < (Tensor.map g r).f then g (r.data i c f t)
     else g (r.data i c ((Tensor.map g r).f - 1) t)) = g (r.data i2 c2 f2 t2)
  split
  · exact ⟨i, c, f, t, rfl⟩
  · exact ⟨i, c, (Tensor.map g r).f - 1, t, rfl⟩

/-! The claims. -/

/-- C9: the `hop_length` construction parameter is stored but never read:
two `CascadedNet`s identical except for `hop_length` (same weights, same
stage networks) produce identical outputs from `forward`, `predict_mask`
and `predict`, in both magnitude and complex mode. -/
theorem hop_length_unused (net : CascadedNet) (hop1 hop2 : ℕ)
    (x : Tensor ℝ) (x2 : Tensor ℂ) :
    ({ net with hop_length := hop1 } : CascadedNet).forwardMag x =
      ({ net with hop_length := hop2 } : CascadedNet).forwardMag x ∧
    ({ net with hop_length := hop1 } : CascadedNet).predict_maskMag x =
      ({ net with hop_length := hop2 } : CascadedNet).predict_maskMag x ∧
    ({ net with hop_length := hop1 } : CascadedNet).predictMag x =
      ({ net with hop_length := hop2 } : CascadedNet).predictMag x ∧
    ({ net with hop_length := hop1 } : CascadedNet).forwardCplx x2 =
      ({ net with hop_length := hop2 } : CascadedNet).forwardCplx x2 ∧
    ({ net with hop_length := hop1 } : CascadedNet).predict_maskCplx x2 =
      ({ net with hop_length := hop2 } : CascadedNet).predict_maskCplx x2 ∧
    ({ net with hop_length := hop1 } : CascadedNet).predictCplx x2 =
      ({ net with hop_length := hop2 } : CascadedNet).predictCplx x2 :=
  ⟨rfl, rfl, rfl, rfl, rfl, rfl⟩

/-- C3: on every valid input (frequency extent at least `max_bin`), each
of the two masks returned by `forward` keeps the input's band channel
count (2 real channels in magnitude mode, 2 complex channels in complex
mode) and has frequency extent exactly `output_bin = n_fft//2 + 1`
whatever the input's frequency extent; every frequency row at or above
`max_bin` replicates the mask's last computed row. -/
theorem forward_mask_shape :
    (∀ (net : CascadedNet) (x : Tensor ℝ), net.Contracts →
      net.is_complex = false → x.c = 2 → net.max_bin ≤ x.f → 0 < net.max_bin →
      net.nout / 4 + net.nout / 2 = 3 * net.nout / 4 →
      ((net.forwardMag x).1.c = x.c ∧ (net.forwardMag x).1.f = net.output_bin ∧
       (net.forwardMag x).2.c = x.c ∧ (net.forwardMag x).2.f = net.output_bin ∧
       (∀ i c f t, net.max_bin ≤ f →
         (net.forwardMag x).1.data i c f t =
           (net.forwardMag x).1.data i c (net.max_bin - 1) t ∧
         (net.forwardMag x).2.data i c f t =
           (net.forwardMag x).2.data i c (net.max_bin - 1) t))) ∧
    (∀ (net : CascadedNet) (x2 : Tensor ℂ), net.Contracts →
      net.is_complex = true → x2.c = 2 → net.max_bin ≤ x2.f → 0 < net.max_bin →
      net.nout / 4 + net.nout / 2 = 3 * net.nout / 4 →
      ((net.forwardCplx x2).1.c = x2.c ∧ (net.forwardCplx x2).1.f = net.output_bin ∧
       (net.forwardCplx x2).2.c = x2.c ∧ (net.forwardCplx x2).2.f = net.output_bin ∧
       (∀ i c f t, net.max_bin ≤ f →
         (net.forwardCplx x2).1.data i c f t =
           (net.forwardCplx x2).1.data i c (net.max_bin - 1) t ∧
         (net.forwardCplx x2).2.data i c f t =
           (net.forwardCplx x2).2.data i c (net.max_bin - 1) t))) := by
  constructor
  · intro net x hC hcp hc hf h0 hq
    have hc2 : x.c = net.nin := by
      rw [hc]
      simp [CascadedNet.nin, hcp]
    obtain ⟨⟨b1, c1, f1, t1⟩, ⟨b2, c2, f2, t2⟩⟩ := net.forwardMag_shape x hC hc2 hf hq
    obtain ⟨yb, yc, yf, yt⟩ := net.raw_y_shape x hC hc2 hf hq
    obtain ⟨vb, vc, vf, vt⟩ := net.raw_v_shape x hC hc2 hf hq
    refine ⟨c1.trans hc2.symm, f1, c2.trans hc2.symm, f2, fun i c f t hfr => ?_⟩
    exact ⟨padOut_rep net (Tensor.map sigmoid (net.raw_y x)) yf h0 i c f t hfr,
           padOut_rep net (Tensor.map sigmoid (net.raw_v x)) vf h0 i c f t hfr⟩
  · intro net x2 hC hcp hc hf h0 hq
    have hxc : (Tensor.reimCat x2).c = net.nin := by
      show x2.c + x2.c = net.nin
      rw [hc]
      simp [CascadedNet.nin, hcp]
    have hxf : net.max_bin ≤ (Tensor.reimCat x2).f := hf
    obtain ⟨⟨b1, c1, f1, t1⟩, ⟨b2, c2, f2, t2⟩⟩ :=
      net.forwardCplx_shape hC hcp x2 hc hf hq
    obtain ⟨yb, yc, yf, yt⟩ := net.raw_y_shape (Tensor.reimCat x2) hC hxc hxf hq
    obtain ⟨vb, vc, vf, vt⟩ := net.raw_v_shape (Tensor.reimCat x2) hC hxc hxf hq
    refine ⟨c1.trans hc.symm, f1, c2.trans hc.symm, f2, fun i c f t hfr => ?_⟩
    refine ⟨padOut_rep net (CascadedNet.bounded_mask
        (Tensor.complexT (Tensor.truncC 2 (net.raw_y (Tensor.reimCat x2)))
          (Tensor.highC 2 (net.raw_y (Tensor.reimCat x2)))) (1e-8)) yf h0 i c f t hfr,
      padOut_rep net (CascadedNet.bounded_mask
        (Tensor.complexT (Tensor.truncC 2 (net.raw_v (Tensor.reimCat x2)))
          (Tensor.highC 2 (net.raw_v (Tensor.reimCat x2)))) (1e-8)) vf h0 i c f t hfr⟩

/-- Witness for C3 at concrete nets and inputs, in both modes. -/
theorem forward_mask_shape_witness :
    ((net2048.forwardMag (zeros 1 2 1025 256)).1.f = net2048.output_bin) ∧
    ((net4c.forwardCplx (zerosC 1 2 3 5)).1.f = net4c.output_bin) :=
  ⟨(forward_mask_shape.1 net2048 (zeros 1 2 1025 256) net2048_contracts rfl rfl
      (by decide) (by decide) (by decide)).2.1,
   (forward_mask_shape.2 net4c (zerosC 1 2 3 5) net4c_contracts rfl rfl
      (by decide) (by decide) (by decide)).2.1⟩

/-- C5: the truncated spectrogram of frequency length F is split at
`F // 2`: the low band is the first `F // 2` bins, the high band the
remaining `F - F // 2` bins (so the high band gets the extra bin when F is
odd); with `max_bin = 1024` the bands have 512 bins each and `aux1` has
frequency extent exactly 1024. -/
theorem band_split (net : CascadedNet) (x : Tensor ℝ) (hC : net.Contracts)
    (hc : x.c = net.nin) (hf : net.max_bin ≤ x.f) :
    (net.l1_in x).f = (net.xTrunc x).f / 2 ∧
    (net.h1_in x).f = (net.xTrunc x).f - (net.xTrunc x).f / 2 ∧
    (∀ i c f t, (net.l1_in x).data i c f t = (net.xTrunc x).data i c f t) ∧
    (∀ i c f t, (net.h1_in x).data i c f t =
      (net.xTrunc x).data i c ((net.xTrunc x).f / 2 + f) t) ∧
    (net.max_bin = 1024 →
      (net.l1_in x).f = 512 ∧ (net.h1_in x).f = 512 ∧ (net.aux1 x).f = 1024) := by
  obtain ⟨_, _, tf, _⟩ := net.xTrunc_shape x hf
  have e1 : (net.l1_in x).f = (net.xTrunc x).f / 2 := by
    show min ((net.xTrunc x).f / 2) (net.xTrunc x).f = (net.xTrunc x).f / 2
    omega
  have e2 : (net.h1_in x).f = (net.xTrunc x).f - (net.xTrunc x).f / 2 := rfl
  refine ⟨e1, e2, fun i c f t => rfl, fun i c f t => rfl, fun h1024 => ?_⟩
  have a1 := (net.aux1_shape x hC hc hf).2.2.1
  refine ⟨?_, ?_, ?_⟩
  · rw [e1, tf, h1024]
  · rw [e2, tf, h1024]
  · rw [a1, h1024]

/-- C6: each stage-2 band input is the channel concatenation of that
band's original (truncated, band-split) input with its stage-1 output;
the stage-3 input is the channel concatenation of the full truncated
input, `aux1` and `aux2`; and the stage-3 recurrent resolution `nin_lstm`
equals `max_bin // 2`, so context grows stage over stage. -/
theorem stage_inputs_grow (net : CascadedNet) (x : Tensor ℝ) (hC : net.Contracts)
    (hc : x.c = net.nin) (hf : net.max_bin ≤ x.f) :
    net.nin_lstm = net.max_bin / 2 ∧
    (net.l2_in x).c = net.nin + net.nout / 4 ∧
    (∀ i c f t, c < net.nin →
      (net.l2_in x).data i c f t = (net.l1_in x).data i c f t) ∧
    (∀ i c f t, net.nin ≤ c →
      (net.l2_in x).data i c f t = (net.l1 x).data i (c - net.nin) f t) ∧
    (net.h2_in x).c = net.nin + net.nout / 4 ∧
    (∀ i c f t, c < net.nin →
      (net.h2_in x).data i c f t = (net.h1_in x).data i c f t) ∧
    (∀ i c f t, net.nin ≤ c →
      (net.h2_in x).data i c f t = (net.h1 x).data i (c - net.nin) f t) ∧
    (net.f3_in x).c = net.nin + (net.nout / 4 + net.nout / 2) ∧
    (∀ i c f t, c < net.nin →
      (net.f3_in x).data i c f t = (net.xTrunc x).data i c f t) ∧
    (∀ i c f t, net.nin ≤ c → c < net.nin + net.nout / 4 →
      (net.f3_in x).data i c f t = (net.aux1 x).data i (c - net.nin) f t) ∧
    (∀ i c f t, net.nin + net.nout / 4 ≤ c →
      (net.f3_in x).data i c f t =
        (net.aux2 x).data i (c - (net.nin + net.nout / 4)) f t) := by
  have hl1c : (net.l1_in x).c = net.nin := hc
  have hh1c : (net.h1_in x).c = net.nin := hc
  have hxtc : (net.xTrunc x).c = net.nin := hc
  have ha1c : (net.aux1 x).c = net.nout / 4 := (net.aux1_shape x hC hc hf).2.1
  refine ⟨rfl, ?_, ?_, ?_, ?_, ?_, ?_, ?_, ?_, ?_, ?_⟩
  · show (net.l1_in x).c + (net.l1 x).c = net.nin + net.nout / 4
    rw [hl1c, (net.l1_shape x hC hc hf).2.1]
  · intro i c f t hlt
    show (if c < (net.l1_in x).c then (net.l1_in x).data i c f t
      else (net.l1 x).data i (c - (net.l1_in x).c) f t) = (net.l1_in x).data i c f t
    rw [if_pos (by omega)]
  · intro i c f t hge
    show (if c < (net.l1_in x).c then (net.l1_in x).data i c f t
      else (net.l1 x).data i (c - (net.l1_in x).c) f t) =
      (net.l1 x).data i (c - net.nin) f t
    rw [if_neg (by omega), hl1c]
  · show (net.h1_in x).c + (net.h1 x).c = net.nin + net.nout / 4
    rw [hh1c, (net.h1_shape x hC hc hf).2.1]
  · intro i c f t hlt
    show (if c < (net.h1_in x).c then (net.h1_in x).data i c f t
      else (net.h1 x).data i (c - (net.h1_in x).c) f t) = (net.h1_in x).data i c f t
    rw [if_pos (by omega)]
  · intro i c f t hge
    show (if c < (net.h1_in x).c then (net.h1_in x).data i c f t
      else (net.h1 x).data i (c - (net.h1_in x).c) f t) =
      (net.h1 x).data i (c - net.nin) f t
    rw [if_neg (by omega), hh1c]
  · show (net.xTrunc x).c + ((net.aux1 x).c + (net.aux2 x).c) =
      net.nin + (net.nout / 4 + net.nout / 2)
    rw [hxtc, ha1c, (net.aux2_shape x hC hc hf).2.1]
  · intro i c f t hlt
    show (if c < (net.xTrunc x).c then (net.xTrunc x).data i c f t
      else (Tensor.catC (net.aux1 x) (net.aux2 x)).data i (c - (net.xTrunc x).c) f t) =
      (net.xTrunc x).data i c f t
    rw [if_pos (by omega)]
  · intro i c f t hge hlt
    show (if c < (net.xTrunc x).c then (net.xTrunc x).data i c f t
      else (Tensor.catC (net.aux1 x) (net.aux2 x)).data i (c - (net.xTrunc x).c) f t) =
      (net.aux1 x).data i (c - net.nin) f t
    rw [if_neg (by omega)]
    show (if c - (net.xTrunc x).c < (net.aux1 x).c
      then (net.aux1 x).data i (c - (net.xTrunc x).c) f t
      else (net.aux2 x).data i (c - (net.xTrunc x).c - (net.aux1 x).c) f t) =
      (net.aux1 x).data i (c - net.nin) f t
    rw [if_pos (by omega), hxtc]
  · intro i c f t hge
    show (if c < (net.xTrunc x).c then (net.xTrunc x).data i c f t
      else (Tensor.catC (net.aux1 x) (net.aux2 x)).data i (c - (net.xTrunc x).c) f t) =
      (net.aux2 x).data i (c - (net.nin + net.nout / 4)) f t
    rw [if_neg (by omega)]
    show (if c - (net.xTrunc x).c < (net.aux1 x).c
      then (net.aux1 x).data i (c - (net.xTrunc x).c) f t
      else (net.aux2 x).data i (c - (net.xTrunc x).c - (net.aux1 x).c) f t) =
      (net.aux2 x).data i (c - (net.nin + net.nout / 4)) f t
    rw [if_neg (by omega)]
    have hidx : c - (net.xTrunc x).c - (net.aux1 x).c =
      c - (net.nin + net.nout / 4) := by omega
    rw [hidx]

/-- Witness for C5 at a concrete net and input. -/
theorem band_split_witness :
    (net2048.l1_in (zeros 1 2 1025 256)).f = 512 ∧
    (net2048.h1_in (zeros 1 2 1025 256)).f = 512 ∧
    (net2048.aux1 (zeros 1 2 1025 256)).f = 1024 :=
  (band_split net2048 (zeros 1 2 1025 256) net2048_contracts rfl
    (by decide)).2.2.2.2 (by decide)

/-- Witness for C6 at a concrete net and input. -/
theorem stage_inputs_grow_witness :
    net2048.nin_lstm = net2048.max_bin / 2 ∧
    (net2048.l2_in (zeros 1 2 1025 256)).c = net2048.nin + net2048.nout / 4 ∧
    (net2048.f3_in (zeros 1 2 1025 256)).c =
      net2048.nin + (net2048.nout / 4 + net2048.nout / 2) :=
  ⟨(stage_inputs_grow net2048 (zeros 1 2 1025 256) net2048_contracts rfl
      (by decide)).1,
   (stage_inputs_grow net2048 (zeros 1 2 1025 256) net2048_contracts rfl
      (by decide)).2.1,
   (stage_inputs_grow net2048 (zeros 1 2 1025 256) net2048_contracts rfl
      (by decide)).2.2.2.2.2.2.2.1⟩

/-- C4: with `n_fft = 2048` the derived sizes are `max_bin = 1024`,
`output_bin = 1025`, `nin_lstm = 512`, `offset = 64`; a magnitude-mode
input of shape (1,2,1025,256) yields `forward` masks of shape
(1,2,1025,256) and `predict_mask` outputs of shape (1,2,1025,128). -/
theorem e2e_2048 (net : CascadedNet) (hn : net.n_fft = 2048)
    (hno : net.nout = 32) (hcp : net.is_complex = false) (hC : net.Contracts)
    (x : Tensor ℝ) (hb : x.b = 1) (hc : x.c = 2) (hf : x.f = 1025)
    (ht : x.t = 256) :
    net.max_bin = 1024 ∧ net.output_bin = 1025 ∧ net.nin_lstm = 512 ∧
    net.offset = 64 ∧
    (net.forwardMag x).1.shape = (1, 2, 1025, 256) ∧
    (net.forwardMag x).2.shape = (1, 2, 1025, 256) ∧
    ∃ my mv, net.predict_maskMag x = Except.ok (my, mv) ∧
      my.shape = (1, 2, 1025, 128) ∧ mv.shape = (1, 2, 1025, 128) := by
  have hmb : net.max_bin = 1024 := by
    show net.n_fft / 2 = 1024
    rw [hn]
  have hob : net.output_bin = 1025 := by
    show net.n_fft / 2 + 1 = 1025
    rw [hn]
  have hnl : net.nin_lstm = 512 := by
    show net.n_fft / 2 / 2 = 512
    rw [hn]
  have hoff : net.offset = 64 := rfl
  have hnin : net.nin = 2 := by simp [CascadedNet.nin, hcp]
  have hc2 : x.c = net.nin := by rw [hc, hnin]
  have hf2 : net.max_bin ≤ x.f := by omega
  have hq : net.nout / 4 + net.nout / 2 = 3 * net.nout / 4 := by rw [hno]
  obtain ⟨⟨b1, c1, f1, t1⟩, ⟨b2, c2, f2, t2⟩⟩ := net.forwardMag_shape x hC hc2 hf2 hq
  refine ⟨hmb, hob, hnl, hoff,
    shape_eq _ _ _ _ _ (b1.trans hb) (c1.trans hnin) (f1.trans hob)
      (t1.trans ht),
    shape_eq _ _ _ _ _ (b2.trans hb) (c2.trans hnin) (f2.trans hob)
      (t2.trans ht), ?_⟩
  have hms := maskStage_ok net.offset (net.forwardMag x).1 (net.forwardMag x).2
    (by omega) (by omega) (by omega)
  refine ⟨_, _, hms, ?_, ?_⟩
  · exact shape_eq _ _ _ _ _ (b1.trans hb) (c1.trans hnin) (f1.trans hob)
      (show (net.forwardMag x).1.t - 2 * net.offset = 128 by omega)
  · exact shape_eq _ _ _ _ _ (b2.trans hb) (c2.trans hnin) (f2.trans hob)
      (show (net.forwardMag x).2.t - 2 * net.offset = 128 by omega)

/-- Witness for C4 at a concrete net and input. -/
theorem e2e_2048_witness :
    net2048.max_bin = 1024 ∧
    (net2048.forwardMag (zeros 1 2 1025 256)).1.shape = (1, 2, 1025, 256) ∧
    (∃ my mv, net2048.predict_maskMag (zeros 1 2 1025 256) = Except.ok (my, mv) ∧
      my.shape = (1, 2, 1025, 128) ∧ mv.shape = (1, 2, 1025, 128)) :=
  ⟨(e2e_2048 net2048 rfl rfl rfl net2048_contracts (zeros 1 2 1025 256)
      rfl rfl rfl rfl).1,
   (e2e_2048 net2048 rfl rfl rfl net2048_contracts (zeros 1 2 1025 256)
      rfl rfl rfl rfl).2.2.2.2.1,
   (e2e_2048 net2048 rfl rfl rfl net2048_contracts (zeros 1 2 1025 256)
      rfl rfl rfl rfl).2.2.2.2.2.2⟩

/-- C7: in magnitude mode every mask element lies in [0,1]; in complex
mode every mask element's magnitude lies in [0,1); and the `eps = 1e-8`
term keeps the bounded-mask denominator nonzero even at a raw entry of
magnitude exactly 0, where the normalized result is exactly 0. -/
theorem mask_bounds :
    (∀ (net : CascadedNet) (x : Tensor ℝ) (i c f t : ℕ),
      (0 ≤ (net.forwardMag x).1.data i c f t ∧
        (net.forwardMag x).1.data i c f t ≤ 1) ∧
      (0 ≤ (net.forwardMag x).2.data i c f t ∧
        (net.forwardMag x).2.data i c f t ≤ 1)) ∧
    (∀ (net : CascadedNet) (x2 : Tensor ℂ) (i c f t : ℕ),
      Complex.abs ((net.forwardCplx x2).1.data i c f t) < 1 ∧
      Complex.abs ((net.forwardCplx x2).2.data i c f t) < 1) ∧
    (∀ (mask : Tensor ℂ) (i c f t : ℕ),
      Complex.abs (mask.data i c f t) = 0 →
      (CascadedNet.bounded_mask mask (1e-8)).data i c f t = 0 ∧
      Complex.abs (mask.data i c f t) + 1e-8 ≠ 0) := by
  refine ⟨?_, ?_, ?_⟩
  · intro net x i c f t
    obtain ⟨iy, cy, fy, ty, hey⟩ := padRepF_map_entry
      (net.output_bin - (Tensor.map sigmoid (net.raw_y x)).f) sigmoid
      (net.raw_y x) i c f t
    obtain ⟨iv, cv, fv, tv, hev⟩ := padRepF_map_entry
      (net.output_bin - (Tensor.map sigmoid (net.raw_v x)).f) sigmoid
      (net.raw_v x) i c f t
    constructor
    · constructor
      · show 0 ≤ (Tensor.padRepF (net.output_bin -
          (Tensor.map sigmoid (net.raw_y x)).f)
          (Tensor.map sigmoid (net.raw_y x))).data i c f t
        rw [hey]
        exact sigmoid_nonneg _
      · show (Tensor.padRepF (net.output_bin -
          (Tensor.map sigmoid (net.raw_y x)).f)
          (Tensor.map sigmoid (net.raw_y x))).data i c f t ≤ 1
        rw [hey]
        exact sigmoid_le_one _
    · constructor
      · show 0 ≤ (Tensor.padRepF (net.output_bin -
          (Tensor.map sigmoid (net.raw_v x)).f)
          (Tensor.map sigmoid (net.raw_v x))).data i c f t
        rw [hev]
        exact sigmoid_nonneg _
      · show (Tensor.padRepF (net.output_bin -
          (Tensor.map sigmoid (net.raw_v x)).f)
          (Tensor.map sigmoid (net.raw_v x))).data i c f t ≤ 1
        rw [hev]
        exact sigmoid_le_one _
  · intro net x2 i c f t
    obtain ⟨iy, cy, fy, ty, hey⟩ := padRepF_map_entry
      (net.output_bin - (Tensor.map (fun z => CascadedNet.boundedEntry z (1e-8))
        (Tensor.complexT (Tensor.truncC 2 (net.raw_y (Tensor.reimCat x2)))
          (Tensor.highC 2 (net.raw_y (Tensor.reimCat x2))))).f)
      (fun z => CascadedNet.boundedEntry z (1e-8))
      (Tensor.complexT (Tensor.truncC 2 (net.raw_y (Tensor.reimCat x2)))
        (Tensor.highC 2 (net.raw_y (Tensor.reimCat x2)))) i c f t
    obtain ⟨iv, cv, fv, tv, hev⟩ := padRepF_map_entry
      (net.output_bin - (Tensor.map (fun z => CascadedNet.boundedEntry z (1e-8))
        (Tensor.complexT (Tensor.truncC 2 (net.raw_v (Tensor.reimCat x2)))
          (Tensor.highC 2 (net.raw_v (Tensor.reimCat x2))))).f)
      (fun z => CascadedNet.boundedEntry z (1e-8))
      (Tensor.complexT (Tensor.truncC 2 (net.raw_v (Tensor.reimCat x2)))
        (Tensor.highC 2 (net.raw_v (Tensor.reimCat x2)))) i c f t
    constructor
    · show Complex.abs ((Tensor.padRepF (net.output_bin -
        (Tensor.map (fun z => CascadedNet.boundedEntry z (1e-8))
          (Tensor.complexT (Tensor.truncC 2 (net.raw_y (Tensor.reimCat x2)))
            (Tensor.highC 2 (net.raw_y (Tensor.reimCat x2))))).f)
        (Tensor.map (fun z => CascadedNet.boundedEntry z (1e-8))
          (Tensor.complexT (Tensor.truncC 2 (net.raw_y (Tensor.reimCat x2)))
            (Tensor.highC 2 (net.raw_y (Tensor.reimCat x2)))))).data i c f t) < 1
      rw [hey]
      exact bounded_entry_abs_lt_one _ _ (by norm_num)
    · show Complex.abs ((Tensor.padRepF (net.output_bin -
        (Tensor.map (fun z => CascadedNet.boundedEntry z (1e-8))
          (Tensor.complexT (Tensor.truncC 2 (net.raw_v (Tensor.reimCat x2)))
            (Tensor.highC 2 (net.raw_v (Tensor.reimCat x2))))).f)
        (Tensor.map (fun z => CascadedNet.boundedEntry z (1e-8))
          (Tensor.complexT (Tensor.truncC 2 (net.raw_v (Tensor.reimCat x2)))
            (Tensor.highC 2 (net.raw_v (Tensor.reimCat x2)))))).data i c f t) < 1
      rw [hev]
      exact bounded_entry_abs_lt_one _ _ (by norm_num)
  · intro mask i c f t habs
    have hz : mask.data i c f t = 0 := Complex.abs.eq_zero.1 habs
    constructor
    · show CascadedNet.boundedEntry (mask.data i c f t) (1e-8) = 0
      rw [hz]
      exact bounded_entry_zero _
    · rw [habs]
      norm_num

/-- Witness for C7's hypothesis-bearing part at a concrete zero entry. -/
theorem mask_bounds_witness :
    (CascadedNet.bounded_mask (zerosC 1 2 3 4) (1e-8)).data 0 0 0 0 = 0 ∧
    Complex.abs ((zerosC 1 2 3 4).data 0 0 0 0) + 1e-8 ≠ 0 :=
  mask_bounds.2.2 (zerosC 1 2 3 4) 0 0 0 0 (by simp [zerosC])

/-- C2: in complex mode each raw mask from the 1x1 output convolution is
reinterpreted with its first two of four channels as real part and the
last two as imaginary part, and each complex entry m is normalized to
`tanh(|m|) * m / (|m| + 1e-8)`; in magnitude mode each raw mask entry
goes through an elementwise sigmoid instead. -/
theorem mask_formation :
    (∀ net : CascadedNet, net.is_complex = true → net.nin = 4) ∧
    (∀ (net : CascadedNet) (x2 : Tensor ℂ) (i c f t : ℕ),
      f < (net.raw_y (Tensor.reimCat x2)).f →
      (net.forwardCplx x2).1.data i c f t =
        CascadedNet.boundedEntry ⟨(net.raw_y (Tensor.reimCat x2)).data i c f t,
          (net.raw_y (Tensor.reimCat x2)).data i (c + 2) f t⟩ (1e-8)) ∧
    (∀ (net : CascadedNet) (x2 : Tensor ℂ) (i c f t : ℕ),
      f < (net.raw_v (Tensor.reimCat x2)).f →
      (net.forwardCplx x2).2.data i c f t =
        CascadedNet.boundedEntry ⟨(net.raw_v (Tensor.reimCat x2)).data i c f t,
          (net.raw_v (Tensor.reimCat x2)).data i (c + 2) f t⟩ (1e-8)) ∧
    (∀ (net : CascadedNet) (x : Tensor ℝ) (i c f t : ℕ),
      f < (net.raw_y x).f →
      (net.forwardMag x).1.data i c f t = sigmoid ((net.raw_y x).data i c f t)) ∧
    (∀ (net : CascadedNet) (x : Tensor ℝ) (i c f t : ℕ),
      f < (net.raw_v x).f →
      (net.forwardMag x).2.data i c f t = sigmoid ((net.raw_v x).data i c f t)) := by
  refine ⟨?_, ?_, ?_, ?_, ?_⟩
  · intro net h
    simp [CascadedNet.nin, h]
  · intro net x2 i c f t hfr
    calc (net.forwardCplx x2).1.data i c f t
        = CascadedNet.boundedEntry
            ⟨(net.raw_y (Tensor.reimCat x2)).data i c f t,
             (net.raw_y (Tensor.reimCat x2)).data i (2 + c) f t⟩ (1e-8) :=
          padRepF_low _ _ i c f t hfr
      _ = CascadedNet.boundedEntry
            ⟨(net.raw_y (Tensor.reimCat x2)).data i c f t,
             (net.raw_y (Tensor.reimCat x2)).data i (c + 2) f t⟩ (1e-8) := by
          rw [Nat.add_comm 2 c]
  · intro net x2 i c f t hfr
    calc (net.forwardCplx x2).2.data i c f t
        = CascadedNet.boundedEntry
            ⟨(net.raw_v (Tensor.reimCat x2)).data i c f t,
             (net.raw_v (Tensor.reimCat x2)).data i (2 + c) f t⟩ (1e-8) :=
          padRepF_low _ _ i c f t hfr
      _ = CascadedNet.boundedEntry
            ⟨(net.raw_v (Tensor.reimCat x2)).data i c f t,
             (net.raw_v (Tensor.reimCat x2)).data i (c + 2) f t⟩ (1e-8) := by
          rw [Nat.add_comm 2 c]
  · intro net x i c f t hfr
    exact padRepF_low _ _ i c f t hfr
  · intro net x i c f t hfr
    exact padRepF_low _ _ i c f t hfr

/-- Witness for C2 at concrete nets and inputs, in both modes. -/
theorem mask_formation_witness :
    (net4c.forwardCplx (zerosC 1 2 3 5)).1.data 0 0 0 0 =
      CascadedNet.boundedEntry
        ⟨(net4c.raw_y (Tensor.reimCat (zerosC 1 2 3 5))).data 0 0 0 0,
         (net4c.raw_y (Tensor.reimCat (zerosC 1 2 3 5))).data 0 (0 + 2) 0 0⟩
        (1e-8) ∧
    (net4.forwardMag (zeros 1 2 3 5)).1.data 0 0 0 0 =
      sigmoid ((net4.raw_y (zeros 1 2 3 5)).data 0 0 0 0) :=
  ⟨mask_formation.2.1 net4c (zerosC 1 2 3 5) 0 0 0 0 (by decide),
   mask_formation.2.2.2.1 net4 (zeros 1 2 3 5) 0 0 0 0 (by decide)⟩

/-- C1 (amended): on every input on which both calls succeed (frequency
extent `output_bin`, more than `2*offset` time frames), `predict` returns,
for each of the two sources, the elementwise product of the ORIGINAL
input x — not of x truncated to `max_bin` and padded back — with the
corresponding mask returned by `predict_mask`; `predict` and
`predict_mask` trim identically (same offset, same resulting shape). -/
theorem predict_eq_input_mul_mask :
    (∀ (net : CascadedNet) (x : Tensor ℝ), net.Contracts → x.c = net.nin →
      net.nout / 4 + net.nout / 2 = 3 * net.nout / 4 →
      x.f = net.output_bin → 2 * net.offset < x.t →
      ∃ my2 mv2 py pv,
        net.predict_maskMag x = Except.ok (my2, mv2) ∧
        net.predictMag x = Except.ok (py, pv) ∧
        py.b = my2.b ∧ py.c = my2.c ∧ py.f = my2.f ∧ py.t = my2.t ∧
        pv.b = mv2.b ∧ pv.c = mv2.c ∧ pv.f = mv2.f ∧ pv.t = mv2.t ∧
        py.t = x.t - 2 * net.offset ∧ pv.t = x.t - 2 * net.offset ∧
        (∀ i c f t, i < py.b → c < py.c → f < py.f → t < py.t →
          py.data i c f t = x.data i c f (t + net.offset) * my2.data i c f t) ∧
        (∀ i c f t, i < pv.b → c < pv.c → f < pv.f → t < pv.t →
          pv.data i c f t = x.data i c f (t + net.offset) * mv2.data i c f t)) ∧
    (∀ (net : CascadedNet) (x2 : Tensor ℂ), net.Contracts →
      net.is_complex = true → x2.c = 2 →
      net.nout / 4 + net.nout / 2 = 3 * net.nout / 4 →
      x2.f = net.output_bin → 2 * net.offset < x2.t →
      ∃ my2 mv2 py pv,
        net.predict_maskCplx x2 = Except.ok (my2, mv2) ∧
        net.predictCplx x2 = Except.ok (py, pv) ∧
        py.b = my2.b ∧ py.c = my2.c ∧ py.f = my2.f ∧ py.t = my2.t ∧
        pv.b = mv2.b ∧ pv.c = mv2.c ∧ pv.f = mv2.f ∧ pv.t = mv2.t ∧
        py.t = x2.t - 2 * net.offset ∧ pv.t = x2.t - 2 * net.offset ∧
        (∀ i c f t, i < py.b → c < py.c → f < py.f → t < py.t →
          py.data i c f t = x2.data i c f (t + net.offset) * my2.data i c f t) ∧
        (∀ i c f t, i < pv.b → c < pv.c → f < pv.f → t < pv.t →
          pv.data i c f t = x2.data i c f (t + net.offset) * mv2.data i c f t)) := by
  constructor
  · intro net x hC hc hq hfo ht
    have hf : net.max_bin ≤ x.f := by
      rw [hfo]
      show net.n_fft / 2 ≤ net.n_fft / 2 + 1
      omega
    obtain ⟨⟨b1, c1, f1, t1⟩, ⟨b2, c2, f2, t2⟩⟩ := net.forwardMag_shape x hC hc hf hq
    obtain ⟨my2, mv2, py, pv, hm, hp, _, _, _, _, _, _, _, _,
        e1, e2, e3, e4, e5, e6, e7, e8, _, _, d1, d2⟩ :=
      predict_from_masks net.offset x (net.forwardMag x).1 (net.forwardMag x).2
        (Nat.succ_pos 63) b1 (c1.trans hc.symm) (f1.trans hfo.symm) t1
        b2 (c2.trans hc.symm) (f2.trans hfo.symm) t2 ht
    exact ⟨my2, mv2, py, pv, hm, hp, e1, e2, e3, e4, e5, e6, e7, e8,
      by omega, by omega, d1, d2⟩
  · intro net x2 hC hcp hc hq hfo ht
    have hf : net.max_bin ≤ x2.f := by
      rw [hfo]
      show net.n_fft / 2 ≤ net.n_fft / 2 + 1
      omega
    obtain ⟨⟨b1, c1, f1, t1⟩, ⟨b2, c2, f2, t2⟩⟩ :=
      net.forwardCplx_shape hC hcp x2 hc hf hq
    obtain ⟨my2, mv2, py, pv, hm, hp, _, _, _, _, _, _, _, _,
        e1, e2, e3, e4, e5, e6, e7, e8, _, _, d1, d2⟩ :=
      predict_from_masks net.offset x2 (net.forwardCplx x2).1 (net.forwardCplx x2).2
        (Nat.succ_pos 63) b1 (c1.trans hc.symm) (f1.trans hfo.symm) t1
        b2 (c2.trans hc.symm) (f2.trans hfo.symm) t2 ht
    exact ⟨my2, mv2, py, pv, hm, hp, e1, e2, e3, e4, e5, e6, e7, e8,
      by omega, by omega, d1, d2⟩

/-- Witness for C1 at a concrete net and input. -/
theorem predict_eq_input_mul_mask_witness :
    ∃ my2 mv2 py pv,
      net2048.predict_maskMag (zeros 1 2 1025 256) = Except.ok (my2, mv2) ∧
      net2048.predictMag (zeros 1 2 1025 256) = Except.ok (py, pv) ∧
      py.b = my2.b ∧ py.c = my2.c ∧ py.f = my2.f ∧ py.t = my2.t ∧
      pv.b = mv2.b ∧ pv.c = mv2.c ∧ pv.f = mv2.f ∧ pv.t = mv2.t ∧
      py.t = (zeros 1 2 1025 256).t - 2 * net2048.offset ∧
      pv.t = (zeros 1 2 1025 256).t - 2 * net2048.offset ∧
      (∀ i c f t, i < py.b → c < py.c → f < py.f → t < py.t →
        py.data i c f t =
          (zeros 1 2 1025 256).data i c f (t + net2048.offset) *
            my2.data i c f t) ∧
      (∀ i c f t, i < pv.b → c < pv.c → f < pv.f → t < pv.t →
        pv.data i c f t =
          (zeros 1 2 1025 256).data i c f (t + net2048.offset) *
            mv2.data i c f t) :=
  predict_eq_input_mul_mask.1 net2048 (zeros 1 2 1025 256) net2048_contracts
    rfl (by decide) rfl (by decide)

/-- C1 counterexample: with all-zero weights every mask entry is
sigmoid(0) = 1/2; at the top frequency row (f = 2 = output_bin - 1) the
actual `predict` output multiplies the input's own row (value 1), while
the input truncated to `max_bin` and padded back has value 0 there, so
the claimed identity `predict(x) = truncpad(x) * predict_mask(x)` fails. -/
theorem predict_truncpad_counterexample :
    peekY (net4.predictMag xC1) 0 0 2 0 = some (1 / 2) ∧
    peekY (net4.predict_maskMag xC1) 0 0 2 0 = some (1 / 2) ∧
    (net4.padOut (Tensor.truncF net4.max_bin xC1)).data 0 0 2 (0 + net4.offset) = 0 ∧
    (0 : ℝ) * (1 / 2) ≠ 1 / 2 := by
  have hraw0 : ∀ i c f t, (net4.raw_y xC1).data i c f t = 0 := by
    intro i c f t
    show (Finset.sum (Finset.range net4.nout) fun k =>
      net4.out_y c k * (net4.f3 xC1).data i k f t) = 0
    simp [net4]
  have hmy : (net4.forwardMag xC1).1.data 0 0 2 64 = 1 / 2 := by
    show (if 2 < (Tensor.map sigmoid (net4.raw_y xC1)).f
      then sigmoid ((net4.raw_y xC1).data 0 0 2 64)
      else sigmoid ((net4.raw_y xC1).data 0 0
        ((Tensor.map sigmoid (net4.raw_y xC1)).f - 1) 64)) = 1 / 2
    rw [if_neg (by decide), hraw0, sigmoid_zero]
  obtain ⟨⟨b1, c1, f1, t1⟩, ⟨b2, c2, f2, t2⟩⟩ :=
    net4.forwardMag_shape xC1 net4_contracts rfl (by decide) (by decide)
  obtain ⟨my2, mv2, py, pv, hm, hp, m1b, m1c, m1f, m1t, _, _, _, _,
      p1b, p1c, p1f, p1t, _, _, _, _, mdata, _, pdata, _⟩ :=
    predict_from_masks net4.offset xC1 (net4.forwardMag xC1).1
      (net4.forwardMag xC1).2 (by decide) b1 c1 f1 t1 b2 c2 f2 t2 (by decide)
  have hp2 : net4.predictMag xC1 = Except.ok (py, pv) := hp
  have hm2 : net4.predict_maskMag xC1 = Except.ok (my2, mv2) := hm
  have hxb : xC1.b = 1 := rfl
  have hxc : xC1.c = 2 := rfl
  have hxf : xC1.f = 3 := rfl
  have hxt : xC1.t = 129 := rfl
  have hofs : net4.offset = 64 := rfl
  have hmv : my2.data 0 0 2 0 = 1 / 2 := by
    rw [mdata 0 0 2 0]
    show (net4.forwardMag xC1).1.data 0 0 2 64 = 1 / 2
    exact hmy
  have hpyv : py.data 0 0 2 0 = 1 / 2 := by
    have hv := pdata 0 0 2 0 (by omega) (by omega) (by omega) (by omega)
    rw [hv]
    have hx1 : xC1.data 0 0 2 (0 + net4.offset) = 1 := by
      show (if 2 = 2 then (1 : ℝ) else 0) = 1
      rw [if_pos rfl]
    rw [hx1, hmv]
    norm_num
  refine ⟨?_, ?_, ?_, by norm_num⟩
  · rw [hp2]
    show some (py.data 0 0 2 0) = some (1 / 2)
    rw [hpyv]
  · rw [hm2]
    show some (my2.data 0 0 2 0) = some (1 / 2)
    rw [hmv]
  · show (if 2 < (Tensor.truncF net4.max_bin xC1).f
      then xC1.data 0 0 2 (0 + net4.offset)
      else xC1.data 0 0 ((Tensor.truncF net4.max_bin xC1).f - 1) (0 + net4.offset)) = 0
    rw [if_neg (by decide)]
    show (if ((Tensor.truncF net4.max_bin xC1).f - 1) = 2 then (1 : ℝ) else 0) = 0
    rw [if_neg (by decide)]

/-- The elementwise multiply in `predict` fails with the shape error
whenever the input's frequency extent differs from `output_bin` (and
frequency broadcasting is impossible, i.e. `max_bin ≥ 2`). -/
theorem predictMag_mismatch (net : CascadedNet) (x : Tensor ℝ)
    (hC : net.Contracts) (hc : x.c = net.nin) (hf : net.max_bin ≤ x.f)
    (h2 : 2 ≤ net.max_bin)
    (hq : net.nout / 4 + net.nout / 2 = 3 * net.nout / 4)
    (hne : x.f ≠ net.output_bin) :
    net.predictMag x = Except.error NetError.shapeMismatch := by
  obtain ⟨⟨mb, mc, mf, mt⟩, _⟩ := net.forwardMag_shape x hC hc hf hq
  have hnone : Tensor.hmul x (net.forwardMag x).1 = none := by
    apply Tensor.hmul_none_f
    · rw [mf]
      exact hne
    · omega
    · rw [mf]
      show net.n_fft / 2 + 1 ≠ 1
      have h2b : 2 ≤ net.n_fft / 2 := h2
      omega
  exact predStage_error_shape net.offset x _ _ hnone

/-- C8 (amended): on every input with T ≤ 2*offset, `predict_mask` fails
with the degenerate-trim (assertion-style) error rather than returning;
`predict` also fails with the degenerate-trim error on every such input
whose frequency extent equals `output_bin` (on which the elementwise
multiply is shape-valid; otherwise it fails earlier with the shape
error). -/
theorem degenerate_trim_failure (net : CascadedNet) (x : Tensor ℝ)
    (hC : net.Contracts) (hc : x.c = net.nin) (hf : net.max_bin ≤ x.f)
    (hq : net.nout / 4 + net.nout / 2 = 3 * net.nout / 4)
    (ht : x.t ≤ 2 * net.offset) :
    net.predict_maskMag x = Except.error NetError.degenerateTrim ∧
    (x.f = net.output_bin →
      net.predictMag x = Except.error NetError.degenerateTrim) := by
  obtain ⟨⟨mb, mc, mf, mt⟩, ⟨nb, nc, nf, nt⟩⟩ := net.forwardMag_shape x hC hc hf hq
  constructor
  · exact maskStage_error net.offset _ _ (Nat.succ_pos 63) (by omega)
  · intro hfo
    obtain ⟨p, hp, pb, pc, pf, pt, _⟩ := Tensor.hmul_eq_shape x (net.forwardMag x).1
      mb.symm (hc.trans mc.symm) (hfo.trans mf.symm) mt.symm
    obtain ⟨q, hqq, qb, qc, qf, qt, _⟩ := Tensor.hmul_eq_shape x (net.forwardMag x).2
      nb.symm (hc.trans nc.symm) (hfo.trans nf.symm) nt.symm
    exact predStage_error_trim net.offset x _ _ p q hp hqq (Nat.succ_pos 63)
      (by omega)

/-- Witness for C8 at a concrete net and input (T = 100 ≤ 128). -/
theorem degenerate_trim_failure_witness :
    net2048.predict_maskMag (zeros 1 2 1025 100) =
      Except.error NetError.degenerateTrim ∧
    net2048.predictMag (zeros 1 2 1025 100) =
      Except.error NetError.degenerateTrim :=
  ⟨(degenerate_trim_failure net2048 (zeros 1 2 1025 100) net2048_contracts
      rfl (by decide) (by decide) (by decide)).1,
   (degenerate_trim_failure net2048 (zeros 1 2 1025 100) net2048_contracts
      rfl (by decide) (by decide) (by decide)).2 rfl⟩

/-- C8 counterexample: an input with T = 100 ≤ 2*offset but frequency
extent `max_bin` = 1024 ≠ `output_bin` makes `predict` fail with the
shape error of the elementwise multiply, not with the degenerate-trim
error the claim promises for every such input. -/
theorem degenerate_trim_counterexample :
    net2048.predictMag (zeros 1 2 1024 100) =
      Except.error NetError.shapeMismatch ∧
    NetError.shapeMismatch ≠ NetError.degenerateTrim :=
  ⟨predictMag_mismatch net2048 (zeros 1 2 1024 100) net2048_contracts rfl
      (by decide) (by decide) (by decide) (by decide),
   by decide⟩

/-- C10: `forward` accepts any input with frequency extent at least
`max_bin` and always produces masks with frequency extent `output_bin`;
`predict`'s elementwise multiplication therefore raises a shape error
whenever the input's frequency extent differs from `output_bin`
(e.g. exactly `max_bin`). -/
theorem predict_requires_output_bin (net : CascadedNet) (x : Tensor ℝ)
    (hC : net.Contracts) (hc : x.c = net.nin) (hf : net.max_bin ≤ x.f)
    (h2 : 2 ≤ net.max_bin)
    (hq : net.nout / 4 + net.nout / 2 = 3 * net.nout / 4) :
    (net.forwardMag x).1.f = net.output_bin ∧
    (net.forwardMag x).2.f = net.output_bin ∧
    (x.f ≠ net.output_bin →
      net.predictMag x = Except.error NetError.shapeMismatch) :=
  ⟨(net.forwardMag_shape x hC hc hf hq).1.2.2.1,
   (net.forwardMag_shape x hC hc hf hq).2.2.2.1,
   fun hne => predictMag_mismatch net x hC hc hf h2 hq hne⟩

/-- Witness for C10 at a concrete net and an input with F = max_bin. -/
theorem predict_requires_output_bin_witness :
    (net2048.forwardMag (zeros 1 2 1024 300)).1.f = net2048.output_bin ∧
    net2048.predictMag (zeros 1 2 1024 300) =
      Except.error NetError.shapeMismatch :=
  ⟨(predict_requires_output_bin net2048 (zeros 1 2 1024 300) net2048_contracts
      rfl (by decide) (by decide) (by decide)).1,
   (predict_requires_output_bin net2048 (zeros 1 2 1024 300) net2048_contracts
      rfl (by decide) (by decide) (by decide)).2.2 (by decide)⟩

end MFCC
